import Mathlib

/-!
# Verification of the project-monitor periodic collection subsystem

Shallow embedding of the parts of the `project-monitor` repository that carry
behavioural contracts:

* the metrics history buffer (`collections.deque(maxlen=C)` in
  `src/controller/app_controller.py`),
* the periodic worker loop and thread registry
  (`src/controller/thread_manager.py`),
* the collection cycle (`AppController.update_metrics` together with
  `SystemData.get_all_metrics` in `src/model/system_data.py`),
* the control-surface write paths (`PowerManager.set_governor`,
  `SensorsReader.set_pwm`) and `ProcessManager.kill_process`.

Python floats that only serve as counters/percentages are modelled as `Int`,
wall-clock quantities as `Nat`; fallible I/O is supplied by explicit
environment values (oracles) so every embedded operation is a total function.
-/

namespace ProjectMonitor

/-! ## History buffer

`AppController.__init__` creates `deque(maxlen=int(MAX_HISTORY_ENTRIES))`;
`update_metrics` appends one entry per cycle; `get_metrics_history` returns
`list(self._metrics_history)` (a copy, oldest → newest). -/

/-- `collections.deque(maxlen := C).append x`: the new element is placed at the
right end and, if the deque would exceed `C` elements, elements are discarded
from the left until the length is back down to `C` (for a buffer already at or
below capacity this discards at most the single oldest entry). -/
def dequeAppend (C : Nat) (buf : List α) (x : α) : List α :=
  let b := buf ++ [x]
  b.drop (b.length - C)

/-- Folding a whole sequence of `append` calls over the buffer. -/
def appendAll (C : Nat) (buf : List α) (xs : List α) : List α :=
  xs.foldl (dequeAppend C) buf

/-- `list(self._metrics_history)`: an ordered copy, oldest → newest
(`AppController.get_metrics_history`). -/
def snapshot (buf : List α) : List α := buf

/-- The last `C` elements of a list (oldest → newest order preserved). -/
def lastN (C : Nat) (l : List α) : List α := l.drop (l.length - C)

lemma lastN_of_le {C : Nat} {l : List α} (h : l.length ≤ C) : lastN C l = l := by
  simp [lastN, Nat.sub_eq_zero_of_le h]

lemma dequeAppend_eq_lastN (C : Nat) (buf : List α) (x : α) :
    dequeAppend C buf x = lastN C (buf ++ [x]) := rfl

lemma dequeAppend_length_le (C : Nat) (buf : List α) (x : α) :
    (dequeAppend C buf x).length ≤ C := by
  simp [dequeAppend]
  omega

lemma lastN_append_left (C : Nat) (l xs : List α) :
    lastN C (lastN C l ++ xs) = lastN C (l ++ xs) := by
  have hd : l.length - C ≤ l.length := Nat.sub_le _ _
  have h1 : (l ++ xs).drop (l.length - C) = l.drop (l.length - C) ++ xs := by
    rw [List.drop_append_eq_append_drop, Nat.sub_eq_zero_of_le hd, List.drop_zero]
  unfold lastN
  rw [← h1, List.drop_drop, List.length_drop]
  congr 1
  simp only [List.length_append]
  omega

lemma appendAll_length_le (C : Nat) :
    ∀ (xs buf : List α), buf.length ≤ C → (appendAll C buf xs).length ≤ C
  | [], _, hb => hb
  | x :: xs, buf, _ =>
    appendAll_length_le C xs (dequeAppend C buf x) (dequeAppend_length_le C buf x)

lemma appendAll_eq_lastN (C : Nat) :
    ∀ (xs buf : List α), buf.length ≤ C → appendAll C buf xs = lastN C (buf ++ xs)
  | [], buf, hb => by
    simp [appendAll, lastN_of_le hb]
  | x :: xs, buf, _ => by
    have ih := appendAll_eq_lastN C xs (dequeAppend C buf x)
      (dequeAppend_length_le C buf x)
    show appendAll C (dequeAppend C buf x) xs = _
    rw [ih, dequeAppend_eq_lastN, lastN_append_left]
    simp

/-! ## Capacity constants (`AppController`)

`UPDATE_INTERVAL = 2.0` (a float; `int(2.0) = 2`), `HISTORY_DURATION = 3600`,
`MAX_HISTORY_ENTRIES = HISTORY_DURATION // int(UPDATE_INTERVAL)`. -/

/-- Seconds between collection cycles: `int(UPDATE_INTERVAL) = int(2.0) = 2`. -/
def UPDATE_INTERVAL_SECONDS : Nat := 2

/-- `HISTORY_DURATION = 3600` seconds of history kept. -/
def HISTORY_DURATION : Nat := 3600

/-- The construction rule for the buffer capacity: configured history duration
floor-divided by the sampling interval (`//` in the source). -/
def maxHistoryEntries (duration interval : Nat) : Nat := duration / interval

/-- `MAX_HISTORY_ENTRIES = HISTORY_DURATION // int(UPDATE_INTERVAL)`. -/
def MAX_HISTORY_ENTRIES : Nat := maxHistoryEntries HISTORY_DURATION UPDATE_INTERVAL_SECONDS

/-- C1: starting from the empty buffer, any sequence of appends whose length
exceeds the capacity `C` leaves a snapshot of length at most `C` whose contents
are exactly the last `C` appended entries in append order (oldest first), and
an append onto a buffer at capacity evicts exactly the single oldest entry. -/
theorem history_buffer_fifo (C : Nat) (xs : List Nat) (h : C < xs.length) :
    (snapshot (appendAll C ([] : List Nat) xs)).length ≤ C ∧
    snapshot (appendAll C ([] : List Nat) xs) = xs.drop (xs.length - C) ∧
    (∀ (buf : List Nat) (x : Nat), buf.length = C → 0 < C →
      dequeAppend C buf x = buf.tail ++ [x]) := by
  refine ⟨?_, ?_, ?_⟩
  · exact appendAll_length_le C xs [] (by simp)
  · rw [snapshot, appendAll_eq_lastN C xs [] (by simp)]
    simp [lastN]
  · intro buf x hlen hC
    rw [dequeAppend_eq_lastN, lastN]
    have hb : buf ≠ [] := by
      intro hnil
      rw [hnil] at hlen
      simp at hlen
      omega
    simp only [List.length_append, List.length_singleton, hlen]
    have : C + 1 - C = 1 := by omega
    rw [this, List.drop_append_eq_append_drop]
    have h1 : 1 - buf.length = 0 := by omega
    rw [h1, List.drop_zero, List.drop_one]

/-- Witness for `history_buffer_fifo` at `C = 2`, `xs = [10, 20, 30]`. -/
theorem history_buffer_fifo_witness :
    (snapshot (appendAll 2 ([] : List Nat) [10, 20, 30])).length ≤ 2 ∧
    snapshot (appendAll 2 ([] : List Nat) [10, 20, 30]) = [20, 30] ∧
    (∀ (buf : List Nat) (x : Nat), buf.length = 2 → 0 < 2 →
      dequeAppend 2 buf x = buf.tail ++ [x]) := by
  have h := history_buffer_fifo 2 [10, 20, 30] (by decide)
  exact ⟨h.1, by rw [h.2.1]; decide, h.2.2⟩

/-- C7: the buffer capacity is fixed at construction to history duration ÷
sampling interval — `3600 / 2 = 1800` for the shipped constants — and every
later append respects that construction-time bound; in the 2 s / 10 s scenario
the capacity is `5` and after 7 cycles the snapshot holds exactly the readings
of cycles 3–7, the oldest being cycle #3's. -/
theorem capacity_fixed_at_construction :
    MAX_HISTORY_ENTRIES = 1800 ∧
    maxHistoryEntries 10 2 = 5 ∧
    snapshot (appendAll (maxHistoryEntries 10 2) ([] : List Nat) [1, 2, 3, 4, 5, 6, 7])
      = [3, 4, 5, 6, 7] ∧
    (snapshot (appendAll (maxHistoryEntries 10 2) ([] : List Nat) [1, 2, 3, 4, 5, 6, 7])).length = 5 ∧
    (snapshot (appendAll (maxHistoryEntries 10 2) ([] : List Nat) [1, 2, 3, 4, 5, 6, 7])).head? = some 3 ∧
    (∀ xs : List Nat, (appendAll MAX_HISTORY_ENTRIES ([] : List Nat) xs).length ≤ MAX_HISTORY_ENTRIES) := by
  refine ⟨by decide, by decide, by decide, by decide, by decide, ?_⟩
  intro xs
  exact appendAll_length_le MAX_HISTORY_ENTRIES xs [] (by simp)

/-! ## ThreadManager (`src/controller/thread_manager.py`)

The registry state holds `self._threads` (name → thread object, of which only
liveness is observable here) and `self._stop_events` (name → whether the event
is set).  All registry operations run under `self._lock`, so they are modelled
as sequential state transformers. -/

/-- One entry of `self._threads`: the observable state of a `threading.Thread`
(`is_alive()`). -/
structure ThreadRec where
  alive : Bool
  deriving Repr, DecidableEq

/-- The mutable state of a `ThreadManager`. -/
structure TMState where
  threads : List (String × ThreadRec)
  stopEvents : List (String × Bool)
  deriving Repr, DecidableEq

/-- Python `dict` read: `m[k]` / `m.get(k)`. -/
def dictGet (m : List (String × β)) (k : String) : Option β :=
  match m with
  | [] => none
  | (k', v) :: rest => if k' = k then some v else dictGet rest k

/-- Python `dict` write: `m[k] = v` (replace an existing binding or add one). -/
def dictPut (m : List (String × β)) (k : String) (v : β) : List (String × β) :=
  match m with
  | [] => [(k, v)]
  | (k', v') :: rest => if k' = k then (k, v) :: rest else (k', v') :: dictPut rest k v

/-- `ThreadManager.start_data_collection_thread` (registry effect): if a thread
with this name exists and is alive, return `False` and change nothing;
otherwise register a fresh unset stop event and a fresh live thread and return
`True`.  The callback and interval do not influence the registry logic. -/
def start_data_collection_thread (s : TMState) (thread_name : String) :
    Bool × TMState :=
  match dictGet s.threads thread_name with
  | some t =>
    if t.alive then
      (false, s)
    else
      (true, { threads := dictPut s.threads thread_name ⟨true⟩,
               stopEvents := dictPut s.stopEvents thread_name false })
  | none =>
    (true, { threads := dictPut s.threads thread_name ⟨true⟩,
             stopEvents := dictPut s.stopEvents thread_name false })

/-- `ThreadManager.stop_thread`: unknown name → `False`; registered but dead
thread → `True` without signalling or joining; otherwise set the stop event
(when one is registered), `join(timeout)`, and report whether the thread had
exited when the join returned.  `joinExited` is the environment's answer to
`not thread.is_alive()` after `thread.join(timeout=timeout)`; the registry
dictionaries themselves are never mutated by `stop_thread`. -/
def stop_thread (s : TMState) (thread_name : String) (joinExited : Bool) :
    Bool × TMState :=
  match dictGet s.threads thread_name with
  | none => (false, s)
  | some t =>
    if t.alive = false then
      (true, s)
    else
      let events :=
        match dictGet s.stopEvents thread_name with
        | some _ => dictPut s.stopEvents thread_name true
        | none => s.stopEvents
      (joinExited, { threads := s.threads, stopEvents := events })

/-- C2: starting a task whose name is already running returns `False`, does not
raise (the operation is a total function), and leaves the registry untouched —
no second execution context is created, so at most one live task per name can
ever exist. -/
theorem start_duplicate_name_rejected (s : TMState) (name : String)
    (t : ThreadRec) (hreg : dictGet s.threads name = some t)
    (halive : t.alive = true) :
    start_data_collection_thread s name = (false, s) := by
  simp [start_data_collection_thread, hreg, halive]

/-- Witness for `start_duplicate_name_rejected` on a one-entry registry. -/
theorem start_duplicate_name_rejected_witness :
    start_data_collection_thread ⟨[("m", ⟨true⟩)], [("m", false)]⟩ "m"
      = (false, ⟨[("m", ⟨true⟩)], [("m", false)]⟩) :=
  start_duplicate_name_rejected ⟨[("m", ⟨true⟩)], [("m", false)]⟩ "m" ⟨true⟩
    (by decide) (by decide)

/-- C9: stopping a name that was never registered returns `False` with the
state unchanged; stopping a registered thread that has already terminated
returns `True` immediately, without setting its stop event and without
joining (state unchanged); neither case raises (the operation is total). -/
theorem stop_thread_edge_cases (s : TMState) (name : String) (j : Bool) :
    (dictGet s.threads name = none → stop_thread s name j = (false, s)) ∧
    (dictGet s.threads name = some ⟨false⟩ → stop_thread s name j = (true, s)) := by
  constructor
  · intro h
    simp [stop_thread, h]
  · intro h
    simp [stop_thread, h]

/-- Witness for `stop_thread_edge_cases`: an absent name and a dead thread. -/
theorem stop_thread_edge_cases_witness :
    stop_thread ⟨[], []⟩ "ghost" true = (false, ⟨[], []⟩) ∧
    stop_thread ⟨[("m", ⟨false⟩)], [("m", false)]⟩ "m" true
      = (true, ⟨[("m", ⟨false⟩)], [("m", false)]⟩) :=
  ⟨(stop_thread_edge_cases ⟨[], []⟩ "ghost" true).1 (by decide),
   (stop_thread_edge_cases ⟨[("m", ⟨false⟩)], [("m", false)]⟩ "m" true).2 (by decide)⟩

/-! ## The periodic worker loop (`ThreadManager._collection_worker`)

```python
while not stop_event.is_set():
    try:
        callback()
    except Exception as e:
        print(f"[ThreadManager] Error in callback: {e}")
    stop_event.wait(timeout=interval)
```

One `callback()` invocation is an `Except String Unit` supplied per iteration
by the environment (`.error` models a raised exception).  `stopSet k` is the
value of `stop_event.is_set()` read at the top of iteration `k`; the fuel
bounds the otherwise unbounded loop. -/

/-- What one loop iteration leaves behind: a completed callback, or a caught
exception surfaced as a single log line. -/
inductive CycleOutcome
  | completed
  | loggedError (msg : String)
  deriving Repr, DecidableEq

/-- The `try/except` body: a raised exception is caught and becomes a log
entry; the iteration completes either way. -/
def cycleOutcome (w : Except String Unit) : CycleOutcome :=
  match w with
  | .ok _ => .completed
  | .error m => .loggedError m

/-- Fuel-bounded run of the worker loop from iteration `i`: the stop flag is
checked at the top of each iteration, then the callback runs under
`try/except`, then the loop waits and repeats. -/
def workerTraceAux (stopSet : Nat → Bool) (work : Nat → Except String Unit)
    (i : Nat) : Nat → List CycleOutcome
  | 0 => []
  | fuel + 1 =>
    if stopSet i then []
    else cycleOutcome (work i) :: workerTraceAux stopSet work (i + 1) fuel

/-- Number of iterations the loop performs before seeing the stop flag (or
running out of fuel) — a function of the stop flag alone. -/
def stopFreeCount (stopSet : Nat → Bool) (i : Nat) : Nat → Nat
  | 0 => 0
  | fuel + 1 =>
    if stopSet i then 0
    else stopFreeCount stopSet (i + 1) fuel + 1

/-- C4: the worker loop runs exactly one cycle per stop-free iteration — a
count depending only on the stop flag, never on the callback's outcomes — and
an iteration whose callback raises contributes a single logged-error entry
while the loop proceeds to the next interval exactly as after a normal cycle. -/
theorem worker_catches_exceptions (stopSet : Nat → Bool)
    (work : Nat → Except String Unit) (i fuel : Nat) :
    workerTraceAux stopSet work i fuel =
      (List.range (stopFreeCount stopSet i fuel)).map
        (fun k => cycleOutcome (work (i + k))) := by
  induction fuel generalizing i with
  | zero => simp [workerTraceAux, stopFreeCount]
  | succ fuel ih =>
    by_cases hs : stopSet i
    · simp [workerTraceAux, stopFreeCount, hs]
    · have h1 : workerTraceAux stopSet work i (fuel + 1)
          = cycleOutcome (work i) :: workerTraceAux stopSet work (i + 1) fuel := by
        simp [workerTraceAux, hs]
      have h2 : stopFreeCount stopSet i (fuel + 1)
          = stopFreeCount stopSet (i + 1) fuel + 1 := by
        simp [stopFreeCount, hs]
      rw [h1, h2, ih (i + 1), List.range_succ_eq_map, List.map_cons, List.map_map]
      congr 1
      have hfun : ∀ k : Nat, i + 1 + k = i + (k + 1) := by omega
      simp only [Function.comp_def, Nat.succ_eq_add_one, hfun]

/-! ## Cycle timing

With the stop event never set, iteration `k` of `_collection_worker` runs
`callback()` (taking `d k` time units) and then `stop_event.wait(timeout =
interval)` expires in full, so the next `callback()` begins a full `interval`
after the previous one *returned*. -/

/-- Start time of the `k`-th `callback()` invocation, read off the loop body:
each cycle is `callback()` (duration `d k`) followed by a full-interval wait. -/
def cycleStart (interval : Nat) (d : Nat → Nat) : Nat → Nat
  | 0 => 0
  | k + 1 => cycleStart interval d k + d k + interval

/-- C6 counterexample: with `interval = 2` and a work duration of `1`
(so `0 < d < interval` holds), the second invocation starts at time `3`, not
`interval = 2` after the first — the loop does *not* deduct the work duration
from the wait. -/
theorem cycle_spacing_counterexample :
    (0 < 1 ∧ 1 < 2) ∧
    cycleStart 2 (fun _ => 1) 1 = 3 ∧
    ¬ (∀ k, cycleStart 2 (fun _ => 1) (k + 1) = cycleStart 2 (fun _ => 1) k + 2) := by
  refine ⟨⟨by decide, by decide⟩, rfl, ?_⟩
  intro hclaim
  have h0 := hclaim 0
  simp [cycleStart] at h0

/-- C6 amended: the `k`-th invocation starts at `k · interval` plus the total
time spent in the first `k` invocations of `work`; successive invocations are
`interval + d` apart (the full interval is waited after `work()` returns),
never closer. -/
theorem cycle_spacing_closed_form (interval : Nat) (d : Nat → Nat) (k : Nat) :
    cycleStart interval d k = k * interval + ((List.range k).map d).sum := by
  induction k with
  | zero => simp [cycleStart]
  | succ k ih =>
    show cycleStart interval d k + d k + interval = _
    rw [ih, List.range_succ, List.map_append, List.sum_append]
    simp [Nat.succ_mul]
    omega

/-- C5: stopping a live registered task sets its stop event before joining and
returns exactly the environment's report of whether the thread had exited when
`join(timeout)` returned; and once the stop event is set the worker loop exits
at its very next check without executing the callback again — for *every*
callback behaviour, including one that raises on each invocation — so a
permanently-raising `work` cannot wedge the loop or the stop. -/
theorem stop_signals_and_returns_join_result (s : TMState) (name : String)
    (joinExited : Bool) (t : ThreadRec) (ev : Bool)
    (hreg : dictGet s.threads name = some t) (halive : t.alive = true)
    (hev : dictGet s.stopEvents name = some ev) :
    stop_thread s name joinExited
      = (joinExited, { threads := s.threads,
                       stopEvents := dictPut s.stopEvents name true }) ∧
    (∀ (work : Nat → Except String Unit) (stopSet : Nat → Bool) (i fuel : Nat),
      stopSet i = true → workerTraceAux stopSet work i fuel = []) := by
  constructor
  · simp [stop_thread, hreg, halive, hev]
  · intro work stopSet i fuel hstop
    cases fuel with
    | zero => rfl
    | succ fuel => simp [workerTraceAux, hstop]

/-- Witness for `stop_signals_and_returns_join_result` on a one-entry
registry holding a live thread. -/
theorem stop_signals_and_returns_join_result_witness :
    stop_thread ⟨[("m", ⟨true⟩)], [("m", false)]⟩ "m" true
      = (true, ⟨[("m", ⟨true⟩)], [("m", true)]⟩) ∧
    (∀ (work : Nat → Except String Unit) (stopSet : Nat → Bool) (i fuel : Nat),
      stopSet i = true → workerTraceAux stopSet work i fuel = []) :=
  stop_signals_and_returns_join_result ⟨[("m", ⟨true⟩)], [("m", false)]⟩ "m" true
    ⟨true⟩ false (by decide) (by decide) (by decide)

/-! ## The collection cycle

`SystemData.get_all_metrics` (`src/model/system_data.py`) builds its dict by
calling `get_cpu_metrics`, `get_ram_metrics`, `get_storage_metrics`,
`get_network_metrics` in order, with *no* try/except of its own: a raise in any
group aborts the whole call.  `AppController.update_metrics` wraps the entire
cycle (query, history append, notify) in one try/except that logs.

Metric groups carry the fields the controller reads downstream; their values
for one cycle — or the exception a group raises — come from the environment. -/

/-- Fields of the `cpu` group read downstream. -/
structure CpuGroup where
  total_percent : Int
  deriving Repr, DecidableEq

/-- Fields of the `ram` group read downstream. -/
structure RamGroup where
  percent : Int
  deriving Repr, DecidableEq

/-- The `storage` group (aggregate usage percentage). -/
structure StorageGroup where
  total_usage_percent : Int
  deriving Repr, DecidableEq

/-- Fields of the `network` group read downstream. -/
structure NetworkGroup where
  upload_speed : Int
  download_speed : Int
  deriving Repr, DecidableEq

/-- The dict returned by `SystemData.get_all_metrics` (one full Reading). -/
structure AllMetrics where
  cpu : CpuGroup
  ram : RamGroup
  storage : StorageGroup
  network : NetworkGroup
  timestamp : Nat
  deriving Repr, DecidableEq

/-- The outcome of each per-group psutil query in one cycle: the group's values
or the exception the query raises. -/
structure MetricsSourceEnv where
  cpu : Except String CpuGroup
  ram : Except String RamGroup
  storage : Except String StorageGroup
  network : Except String NetworkGroup
  now : Nat
  deriving Repr

/-- `SystemData.get_all_metrics`: the group getters are called in source order
inside a dict literal; an exception from any one of them propagates and no
Reading is produced. -/
def get_all_metrics (e : MetricsSourceEnv) : Except String AllMetrics := do
  let c ← e.cpu
  let r ← e.ram
  let s ← e.storage
  let n ← e.network
  pure ⟨c, r, s, n, e.now⟩

/-- One entry of `self._metrics_history`, as built in
`AppController.update_metrics`. -/
structure HistoryEntry where
  timestamp : Nat
  cpu_percent : Int
  ram_percent : Int
  network_upload : Int
  network_download : Int
  deriving Repr, DecidableEq

/-- The history entry `update_metrics` appends for a Reading `m`. -/
def entryOf (m : AllMetrics) : HistoryEntry :=
  ⟨m.timestamp, m.cpu.total_percent, m.ram.percent,
   m.network.upload_speed, m.network.download_speed⟩

/-- The controller state touched by `update_metrics`: the history deque, the
last reading, the readings delivered to the view (callback or console dump),
and the lines printed by the `except` clause. -/
structure ControllerState where
  metrics_history : List HistoryEntry
  current_metrics : Option AllMetrics
  notified : List AllMetrics
  error_log : List String
  deriving Repr, DecidableEq

/-- `AppController.update_metrics`: query the source, append to the bounded
history, notify the view; any exception in the cycle is caught and printed as
one line, and nothing else happens that cycle. -/
def update_metrics (e : MetricsSourceEnv) (st : ControllerState) : ControllerState :=
  match get_all_metrics e with
  | .ok m =>
    { metrics_history := dequeAppend MAX_HISTORY_ENTRIES st.metrics_history (entryOf m),
      current_metrics := some m,
      notified := st.notified ++ [m],
      error_log := st.error_log }
  | .error msg =>
    { st with error_log :=
        st.error_log ++ ["[AppController] Error updating metrics: " ++ msg] }

/-- A cycle environment in which only the network group raises. -/
def netFailEnv : MetricsSourceEnv :=
  { cpu := .ok ⟨42⟩, ram := .ok ⟨37⟩, storage := .ok ⟨55⟩,
    network := .error "net_io_counters failed", now := 1000 }

/-- The controller's initial state (empty history, nothing delivered). -/
def initialControllerState : ControllerState := ⟨[], none, [], []⟩

/-- C3 counterexample: when the network group alone raises (CPU, RAM and
storage queries succeed), `get_all_metrics` does *not* return a partial Reading
with a zero network group — it propagates the exception — and the Notifier
receives nothing that cycle: no reading is delivered, appended or retained. -/
theorem partial_reading_counterexample :
    get_all_metrics netFailEnv = .error "net_io_counters failed" ∧
    (update_metrics netFailEnv initialControllerState).notified = [] ∧
    (update_metrics netFailEnv initialControllerState).metrics_history = [] ∧
    (update_metrics netFailEnv initialControllerState).current_metrics = none ∧
    (update_metrics netFailEnv initialControllerState).error_log
      = ["[AppController] Error updating metrics: net_io_counters failed"] := by
  refine ⟨rfl, rfl, rfl, rfl, rfl⟩

/-- C3 amended: a failure in one metric group (here the network group) aborts
the whole `get_all_metrics` call with that exception; `update_metrics` catches
it at the cycle boundary — the cycle itself never raises — logs a single line,
and leaves history, current reading and the Notifier untouched for that cycle. -/
theorem group_failure_aborts_cycle (e : MetricsSourceEnv) (st : ControllerState)
    (msg : String) (c : CpuGroup) (r : RamGroup) (sg : StorageGroup)
    (hc : e.cpu = .ok c) (hr : e.ram = .ok r) (hs : e.storage = .ok sg)
    (hn : e.network = .error msg) :
    get_all_metrics e = .error msg ∧
    update_metrics e st
      = { st with error_log :=
            st.error_log ++ ["[AppController] Error updating metrics: " ++ msg] } := by
  have hall : get_all_metrics e = .error msg := by
    unfold get_all_metrics
    rw [hc, hr, hs, hn]
    rfl
  exact ⟨hall, by simp [update_metrics, hall]⟩

/-- Witness for `group_failure_aborts_cycle` at the concrete network-failure
environment. -/
theorem group_failure_aborts_cycle_witness :
    get_all_metrics netFailEnv = .error "net_io_counters failed" ∧
    update_metrics netFailEnv initialControllerState
      = { initialControllerState with error_log :=
            ["[AppController] Error updating metrics: " ++ "net_io_counters failed"] } :=
  group_failure_aborts_cycle netFailEnv initialControllerState
    "net_io_counters failed" ⟨42⟩ ⟨37⟩ ⟨55⟩ rfl rfl rfl rfl

/-! ## Control surfaces

`PowerManager.set_governor` (`src/model/power_manager.py`) and
`SensorsReader.set_pwm` (`src/model/sensors.py`) return `{success, message}`
dicts on every path; the sysfs writes and the pkexec helper invocation are
supplied by the environment. -/

/-- The `{success: bool, message: string}` dict every control-surface write
returns. -/
structure Result where
  success : Bool
  message : String
  deriving Repr, DecidableEq

lemma append_left_ne_empty (s t : String) (hs : s ≠ "") : s ++ t ≠ "" := by
  intro h
  apply hs
  have hd : s.data ++ t.data = [] := by
    have h2 := congrArg String.data h
    rwa [String.data_append] at h2
  have h3 : s.data = [] := (List.append_eq_nil.mp hd).1
  cases s with
  | mk d =>
    have hdd : d = [] := h3
    subst hdd
    rfl

/-- How a single sysfs file write turns out (`open(...,"w").write(...)`). -/
inductive WriteOutcome
  | ok
  | permissionDenied
  | otherError (msg : String)
  deriving Repr, DecidableEq

/-- `SensorsReader.set_pwm`: range-check the value, then attempt the write;
`PermissionError` and any other exception are caught and reported in the
returned dict. -/
def set_pwm (write : WriteOutcome) (value : Int) : Result :=
  if value < 0 ∨ value > 255 then
    ⟨false, "PWM fuera de rango (0-255)"⟩
  else
    match write with
    | .ok => ⟨true, "PWM ajustado a " ++ toString value⟩
    | .permissionDenied => ⟨false, "Permiso denegado al escribir PWM"⟩
    | .otherError m => ⟨false, "Error al escribir PWM: " ++ m⟩

/-- How `subprocess.run(["pkexec", ...])` turns out: a `SubprocessError`, or a
completed process with a return code and (already-stripped) stdout/stderr. -/
inductive HelperOutcome
  | subprocessError (msg : String)
  | completed (returncode : Int) (stdout : String) (stderr : String)
  deriving Repr, DecidableEq

/-- The environment of one `PowerManager.set_governor` call: the cpufreq paths
found at construction, the available-governors list read from sysfs, the
per-path outcome of `_safe_write_str` (which swallows exceptions and returns a
bool), the `use_pkexec` config flag, and the pkexec helper's environment. -/
structure GovernorEnv where
  cpu_paths : List String
  available : List String
  writeOk : String → Bool
  use_pkexec : Bool
  helperExists : Bool
  pkexecAvailable : Bool
  helperRun : HelperOutcome

/-- `PowerManager._run_helper`: missing helper script or missing `pkexec` are
reported as failures; a completed run maps return code 0 to success (message
from stdout, with a default when empty) and anything else to failure (message
from stderr, with a default when empty); `SubprocessError` is caught. -/
def run_helper (e : GovernorEnv) : Result :=
  if e.helperExists = false then
    ⟨false, "Helper de energía no encontrado"⟩
  else if e.pkexecAvailable = false then
    ⟨false, "pkexec no disponible para elevar privilegios"⟩
  else
    match e.helperRun with
    | .completed rc out err =>
      if rc = 0 then ⟨true, if out = "" then "Perfil aplicado con pkexec" else out⟩
      else ⟨false, if err = "" then "pkexec falló en aplicar el perfil" else err⟩
    | .subprocessError m => ⟨false, "Error ejecutando pkexec: " ++ m⟩

/-- The `errors` list accumulated by `set_governor`'s write loop: the paths on
which `_safe_write_str` returned `False`. -/
def governorWriteErrors (e : GovernorEnv) : List String :=
  e.cpu_paths.filter (fun p => !(e.writeOk p))

/-- `PowerManager.set_governor`: empty argument, missing cpufreq paths and an
unsupported governor are rejected up front; otherwise the governor is written
to every path, and remaining failures either fall back to the pkexec helper or
are reported as a permissions failure. -/
def set_governor (e : GovernorEnv) (governor : String) : Result :=
  if governor = "" then
    ⟨false, "Gobernador no especificado"⟩
  else if e.cpu_paths = [] then
    ⟨false, "No se encontró ruta cpufreq"⟩
  else if e.available ≠ [] ∧ governor ∉ e.available then
    ⟨false, "Gobernador '" ++ governor ++ "' no soportado. Disponibles: "
      ++ String.intercalate ", " e.available⟩
  else if governorWriteErrors e ≠ [] then
    if e.use_pkexec then run_helper e
    else ⟨false, "No se pudo escribir en " ++ toString (governorWriteErrors e).length
      ++ " CPU(s). Requiere permisos."⟩
  else ⟨true, "Gobernador establecido en '" ++ governor ++ "'"⟩

lemma run_helper_failure_message (e : GovernorEnv) :
    (run_helper e).success = false → (run_helper e).message ≠ "" := by
  unfold run_helper
  split_ifs with h1 h2
  · intro _; decide
  · intro _; decide
  · cases hr : e.helperRun with
    | completed rc out err =>
      by_cases hrc : rc = 0
      · simp [hrc]
      · simp [hrc]
        split_ifs with herr
        · decide
        · exact herr
    | subprocessError m =>
      intro _
      exact append_left_ne_empty "Error ejecutando pkexec: " m (by decide)

lemma set_governor_failure_message (e : GovernorEnv) (gov : String) :
    (set_governor e gov).success = false → (set_governor e gov).message ≠ "" := by
  unfold set_governor
  split_ifs with h1 h2 h3 h4 h5
  · intro _; decide
  · intro _; decide
  · intro _
    exact append_left_ne_empty _ _
      (append_left_ne_empty _ _
        (append_left_ne_empty "Gobernador '" gov (by decide)))
  · exact run_helper_failure_message e
  · intro _
    exact append_left_ne_empty _ _
      (append_left_ne_empty "No se pudo escribir en "
        (toString (governorWriteErrors e).length) (by decide))
  · intro hfalse
    simp at hfalse

lemma set_pwm_failure_message (wr : WriteOutcome) (v : Int) :
    (set_pwm wr v).success = false → (set_pwm wr v).message ≠ "" := by
  unfold set_pwm
  split_ifs with h1
  · intro _
    show ("PWM fuera de rango (0-255)" : String) ≠ ""
    decide
  · cases wr with
    | ok =>
      intro hfalse
      simp at hfalse
    | permissionDenied =>
      intro _
      show ("Permiso denegado al escribir PWM" : String) ≠ ""
      decide
    | otherError m =>
      intro _
      show ("Error al escribir PWM: " ++ m : String) ≠ ""
      exact append_left_ne_empty "Error al escribir PWM: " m (by decide)

lemma set_pwm_success_iff (wr : WriteOutcome) (v : Int) :
    (set_pwm wr v).success = true ↔ (0 ≤ v ∧ v ≤ 255 ∧ wr = WriteOutcome.ok) := by
  unfold set_pwm
  split_ifs with h1
  · constructor
    · intro hfalse
      exact absurd hfalse (by decide)
    · rintro ⟨hv1, hv2, _⟩
      exact absurd h1 (by omega)
  · cases wr with
    | ok =>
      constructor
      · intro _
        exact ⟨by omega, by omega, rfl⟩
      · intro _
        rfl
    | permissionDenied =>
      constructor
      · intro hfalse
        simp at hfalse
      · rintro ⟨_, _, hok⟩
        exact WriteOutcome.noConfusion hok
    | otherError m =>
      constructor
      · intro hfalse
        simp at hfalse
      · rintro ⟨_, _, hok⟩
        exact WriteOutcome.noConfusion hok

/-- C8: every control-surface write returns a `{success, message}` result (the
embedded operations are total functions, so no exception reaches the caller),
every failing `set_governor` or `set_pwm` call carries a non-empty message,
an empty governor or a missing cpufreq path is always a reported failure, and
`set_pwm` succeeds exactly when the value is in 0–255 and the sysfs write goes
through — every other input, including permission denial and helper failure,
yields `success = false`. -/
theorem control_surface_results (e : GovernorEnv) (gov : String)
    (wr : WriteOutcome) (v : Int) :
    ((set_governor e gov).success = false → (set_governor e gov).message ≠ "") ∧
    (gov = "" → (set_governor e gov).success = false) ∧
    (e.cpu_paths = [] → (set_governor e gov).success = false) ∧
    ((set_pwm wr v).success = false → (set_pwm wr v).message ≠ "") ∧
    ((set_pwm wr v).success = true ↔ (0 ≤ v ∧ v ≤ 255 ∧ wr = WriteOutcome.ok)) := by
  refine ⟨set_governor_failure_message e gov, ?_, ?_,
    set_pwm_failure_message wr v, set_pwm_success_iff wr v⟩
  · intro hg
    simp [set_governor, hg]
  · intro hp
    by_cases hg : gov = ""
    · simp [set_governor, hg]
    · simp [set_governor, hg, hp]

/-- Witness for `control_surface_results`: an empty governor is rejected with a
message, and a permission-denied PWM write at value 100 is a reported failure. -/
theorem control_surface_results_witness :
    (set_governor ⟨[], [], fun _ => false, false, false, false,
        HelperOutcome.subprocessError ""⟩ "").success = false ∧
    (set_pwm WriteOutcome.permissionDenied 100).success = false ∧
    (set_pwm WriteOutcome.permissionDenied 100).message ≠ "" := by
  have h := control_surface_results
    ⟨[], [], fun _ => false, false, false, false, HelperOutcome.subprocessError ""⟩
    "" WriteOutcome.permissionDenied 100
  have hpwm : (set_pwm WriteOutcome.permissionDenied 100).success = false := by decide
  exact ⟨h.2.1 rfl, hpwm, h.2.2.2.1 hpwm⟩

/-! ## `ProcessManager.kill_process` (`src/model/process_manager.py`) -/

/-- How the psutil interaction inside `kill_process` turns out: the process
object is obtained and signalled (`proceeds`, with the process name and whether
`proc.wait(timeout=3)` raised `TimeoutExpired`), or one of the exceptions the
function catches is raised. -/
inductive KillOutcome
  | proceeds (procName : String) (waitTimedOut : Bool)
  | noSuchProcess
  | accessDenied
  | otherError (msg : String)
  deriving Repr, DecidableEq

/-- The dict `kill_process` returns: always the keys `success`, `message`,
`pid`. -/
structure KillResult where
  success : Bool
  message : String
  pid : Int
  deriving Repr, DecidableEq

/-- `ProcessManager.kill_process`: signal with SIGKILL (`force`) or SIGTERM,
wait up to 3 s; a graceful termination that times out is reported as a failure
(unless `force`, where the code falls through to the success dict);
`NoSuchProcess`, `AccessDenied` and any other exception are caught and turned
into failure dicts carrying the argument pid. -/
def kill_process (env : KillOutcome) (pid : Int) (force : Bool) : KillResult :=
  match env with
  | .proceeds procName waitTimedOut =>
    let action := if force then "killed (SIGKILL)" else "terminated (SIGTERM)"
    if waitTimedOut ∧ ¬ force then
      ⟨false, "Process '" ++ procName ++ "' (PID: " ++ toString pid
        ++ ") did not terminate gracefully. Try with force=True.", pid⟩
    else
      ⟨true, "Process '" ++ procName ++ "' (PID: " ++ toString pid
        ++ ") was " ++ action ++ " successfully.", pid⟩
  | .noSuchProcess =>
    ⟨false, "Process with PID " ++ toString pid ++ " does not exist.", pid⟩
  | .accessDenied =>
    ⟨false, "Access denied. Cannot terminate process with PID " ++ toString pid
      ++ ". Try running with elevated privileges.", pid⟩
  | .otherError m =>
    ⟨false, "Error terminating process with PID " ++ toString pid ++ ": " ++ m, pid⟩

/-- C10: `kill_process` is a total function into `{success, message, pid}` (no
exception reaches the caller), the returned `pid` always equals the argument,
and a non-existent process, an access-denied error, or any other caught
exception yields `success = false` with a non-empty message. -/
theorem kill_process_result_shape (env : KillOutcome) (pid : Int) (force : Bool) :
    (kill_process env pid force).pid = pid ∧
    ((env = KillOutcome.noSuchProcess ∨ env = KillOutcome.accessDenied ∨
        (∃ m, env = KillOutcome.otherError m)) →
      (kill_process env pid force).success = false ∧
      (kill_process env pid force).message ≠ "") := by
  constructor
  · cases env with
    | proceeds procName waitTimedOut =>
      simp only [kill_process]
      split_ifs <;> rfl
    | noSuchProcess => rfl
    | accessDenied => rfl
    | otherError m => rfl
  · rintro (hcase | hcase | ⟨m, hcase⟩) <;> subst hcase
    · exact ⟨rfl, append_left_ne_empty "Process with PID " _ (by decide)⟩
    · exact ⟨rfl, append_left_ne_empty _ _
        (append_left_ne_empty "Access denied. Cannot terminate process with PID "
          (toString pid) (by decide))⟩
    · exact ⟨rfl, append_left_ne_empty _ _
        (append_left_ne_empty _ _
          (append_left_ne_empty "Error terminating process with PID "
            (toString pid) (by decide)))⟩

/-- Witness for `kill_process_result_shape` at pid 42, non-existent process. -/
theorem kill_process_result_shape_witness :
    (kill_process KillOutcome.noSuchProcess 42 false).pid = 42 ∧
    (kill_process KillOutcome.noSuchProcess 42 false).success = false ∧
    (kill_process KillOutcome.noSuchProcess 42 false).message ≠ "" := by
  have h := kill_process_result_shape KillOutcome.noSuchProcess 42 false
  exact ⟨h.1, (h.2 (Or.inl rfl)).1, (h.2 (Or.inl rfl)).2⟩

end ProjectMonitor
